import Mathlib

/-!
Verification of the hydra-bot client networking core (Rust sources under
`src/`): packet codec (`net_packet.rs`), tic-diff codec and receive-window
protocol (`net_client.rs`), clock sync and loop pacing (`d_loop.rs`).

Machine integers are modelled as `Nat` (unsigned) and `Int` (signed), with
explicit `% 2^w` where the source can wrap.  Byte buffers are `List Nat`
(each element a byte value).  Wall-clock instants are abstract `Int`
millisecond timestamps passed in as parameters.
-/

namespace HydraBot

/-! ## Packet codec (`src/src/net_packet.rs`) -/

/-- `NetPacket` (net_packet.rs lines 5-9): a byte buffer plus a read cursor. -/
structure NetPacket where
  data : List Nat
  pos : Nat
deriving DecidableEq, Repr

/-- `i8` view of a byte, as in Rust `v as i8`. -/
def toI8 (v : Nat) : Int :=
  if v < 128 then (v : Int) else (v : Int) - 256

/-- `i16` view of a 16-bit value, as in Rust `v as i16`. -/
def toI16 (v : Nat) : Int :=
  if v < 32768 then (v : Int) else (v : Int) - 65536

/-- `i32` view of a 32-bit value, as in Rust `v as i32`. -/
def toI32 (v : Nat) : Int :=
  if v < 2147483648 then (v : Int) else (v : Int) - 4294967296

/-- Two's-complement byte of an `i8` value, as in Rust `v as u8`. -/
def toU8 (v : Int) : Nat := (v % 256).toNat

/-- Two's-complement 16-bit value of an `i16`, as in Rust `v as u16`. -/
def toU16 (v : Int) : Nat := (v % 65536).toNat

/-- Two's-complement 32-bit value of an `i32`, as in Rust `v as u32`. -/
def toU32 (v : Int) : Nat := (v % 4294967296).toNat

namespace NetPacket

/-- `write_u8` (net_packet.rs lines 73-75): push one byte. -/
def write_u8 (p : NetPacket) (value : Nat) : NetPacket :=
  { p with data := p.data ++ [value] }

/-- `write_i8` (net_packet.rs lines 78-80): push `value as u8`. -/
def write_i8 (p : NetPacket) (value : Int) : NetPacket :=
  { p with data := p.data ++ [toU8 value] }

/-- `write_u16` (net_packet.rs lines 83-85): append the two big-endian bytes. -/
def write_u16 (p : NetPacket) (value : Nat) : NetPacket :=
  { p with data := p.data ++ [value / 256, value % 256] }

/-- `write_i16` (net_packet.rs lines 88-90): append big-endian bytes of the
two's-complement representation. -/
def write_i16 (p : NetPacket) (value : Int) : NetPacket :=
  { p with data := p.data ++ [toU16 value / 256, toU16 value % 256] }

/-- `write_u32` (net_packet.rs lines 93-95): append the four big-endian bytes. -/
def write_u32 (p : NetPacket) (value : Nat) : NetPacket :=
  { p with data := p.data ++
      [value / 16777216, value / 65536 % 256, value / 256 % 256, value % 256] }

/-- `write_i32` (net_packet.rs lines 102-104): append big-endian bytes of the
two's-complement representation. -/
def write_i32 (p : NetPacket) (value : Int) : NetPacket :=
  { p with data := p.data ++
      [toU32 value / 16777216, toU32 value / 65536 % 256,
       toU32 value / 256 % 256, toU32 value % 256] }

/-- `write_blob` (net_packet.rs lines 97-99): append raw bytes. -/
def write_blob (p : NetPacket) (buf : List Nat) : NetPacket :=
  { p with data := p.data ++ buf }

/-- `write_string` (net_packet.rs lines 107-115): push every non-NUL byte of
the string, then a NUL terminator.  The string is modelled by its UTF-8
bytes. -/
def write_string (p : NetPacket) (s : List Nat) : NetPacket :=
  { p with data := p.data ++ s.filter (· ≠ 0) ++ [0] }

/-- `read_u8` (net_packet.rs lines 118-126): one byte at the cursor if in
bounds, advancing the cursor; `None` (cursor untouched) otherwise. -/
def read_u8 (p : NetPacket) : Option Nat × NetPacket :=
  if p.pos < p.data.length then
    (some (p.data.getD p.pos 0), { p with pos := p.pos + 1 })
  else
    (none, p)

/-- `read_i8` (net_packet.rs lines 129-131): `read_u8` then `as i8`. -/
def read_i8 (p : NetPacket) : Option Int × NetPacket :=
  let (v, p') := read_u8 p
  (v.map toI8, p')

/-- `read_u16` (net_packet.rs lines 134-142): two big-endian bytes at the
cursor if they fit, advancing the cursor by 2; `None` otherwise. -/
def read_u16 (p : NetPacket) : Option Nat × NetPacket :=
  if p.pos + 2 ≤ p.data.length then
    let bytes := (p.data.drop p.pos).take 2
    (some (bytes.getD 0 0 * 256 + bytes.getD 1 0), { p with pos := p.pos + 2 })
  else
    (none, p)

/-- `read_i16` (net_packet.rs lines 145-147): `read_u16` then `as i16`. -/
def read_i16 (p : NetPacket) : Option Int × NetPacket :=
  let (v, p') := read_u16 p
  (v.map toI16, p')

/-- `read_u32` (net_packet.rs lines 150-158): four big-endian bytes at the
cursor if they fit, advancing the cursor by 4; `None` otherwise. -/
def read_u32 (p : NetPacket) : Option Nat × NetPacket :=
  if p.pos + 4 ≤ p.data.length then
    let bytes := (p.data.drop p.pos).take 4
    (some (bytes.getD 0 0 * 16777216 + bytes.getD 1 0 * 65536 +
           bytes.getD 2 0 * 256 + bytes.getD 3 0),
     { p with pos := p.pos + 4 })
  else
    (none, p)

/-- `read_i32` (net_packet.rs lines 161-163): `read_u32` then `as i32`. -/
def read_i32 (p : NetPacket) : Option Int × NetPacket :=
  let (v, p') := read_u32 p
  (v.map toI32, p')

/-- `read_string` (net_packet.rs lines 167-176): bytes up to the first NUL at
or after the cursor, advancing past the terminator; `None` (cursor untouched)
when no terminator exists.  The returned string is modelled by its bytes
(`String::from_utf8_lossy` is the identity on the valid UTF-8 input that
`write_string` produces). -/
def read_string (p : NetPacket) : Option (List Nat) × NetPacket :=
  match (p.data.drop p.pos).findIdx? (· = 0) with
  | some terminator =>
      (some ((p.data.drop p.pos).take terminator),
       { p with pos := p.pos + terminator + 1 })
  | none => (none, p)

/-- `read_sha1sum` (net_packet.rs lines 188-196): 20 raw bytes at the cursor
if they fit, advancing the cursor by 20; `None` otherwise.  The out-parameter
digest is modelled as the returned value. -/
def read_sha1sum (p : NetPacket) : Option (List Nat) × NetPacket :=
  if p.pos + 20 ≤ p.data.length then
    (some ((p.data.drop p.pos).take 20), { p with pos := p.pos + 20 })
  else
    (none, p)

end NetPacket

/-! ## Tic commands and the tic-diff codec (`src/src/net_structs.rs`,
`src/src/net_client.rs`) -/

/-- `TicCmd` (net_structs.rs lines 1-13).  Signed fields are `Int`, unsigned
fields `Nat`; the diff codec only copies and compares them, so no width
reduction occurs. -/
@[ext]
structure TicCmd where
  forwardmove : Int  -- i8
  sidemove : Int     -- i8
  angleturn : Int    -- i16
  chatchar : Nat     -- u8
  buttons : Nat      -- u8
  consistancy : Nat  -- u8
  buttons2 : Nat     -- u8
  inventory : Int    -- i32
  lookfly : Nat      -- u8
  arti : Nat         -- u8
deriving DecidableEq, Repr

/-- `TicCmd::default()`: all fields zero. -/
def TicCmd.default : TicCmd :=
  ⟨0, 0, 0, 0, 0, 0, 0, 0, 0, 0⟩

-- TicDiff flag constants (net_structs.rs lines 62-69).

def NET_TICDIFF_FORWARD : Nat := 1 <<< 0

def NET_TICDIFF_SIDE : Nat := 1 <<< 1

def NET_TICDIFF_TURN : Nat := 1 <<< 2

def NET_TICDIFF_BUTTONS : Nat := 1 <<< 3

def NET_TICDIFF_CONSISTANCY : Nat := 1 <<< 4

def NET_TICDIFF_CHATCHAR : Nat := 1 <<< 5

def NET_TICDIFF_RAVEN : Nat := 1 <<< 6

def NET_TICDIFF_STRIFE : Nat := 1 <<< 7

/-- `NetTicDiff` (net_structs.rs lines 334-338): a field-presence bitmask and
a full command. -/
structure NetTicDiff where
  diff : Nat  -- u32 bitmask
  cmd : TicCmd
deriving DecidableEq, Repr

/-- `NetTicDiff::default()`. -/
def NetTicDiff.default : NetTicDiff :=
  ⟨0, TicCmd.default⟩

/-- `calculate_ticcmd_diff` (net_client.rs lines 1359-1387): `diff.diff`
starts at 0 and one `|=` per field condition follows; `diff.cmd` is the whole
new command.  `last` stands for `self.last_ticcmd`. -/
def calculate_ticcmd_diff (last ticcmd : TicCmd) : NetTicDiff :=
  let d : Nat := 0
  let d := if last.forwardmove ≠ ticcmd.forwardmove then d ||| NET_TICDIFF_FORWARD else d
  let d := if last.sidemove ≠ ticcmd.sidemove then d ||| NET_TICDIFF_SIDE else d
  let d := if last.angleturn ≠ ticcmd.angleturn then d ||| NET_TICDIFF_TURN else d
  let d := if last.buttons ≠ ticcmd.buttons then d ||| NET_TICDIFF_BUTTONS else d
  let d := if last.consistancy ≠ ticcmd.consistancy then d ||| NET_TICDIFF_CONSISTANCY else d
  let d := if ticcmd.chatchar ≠ 0 then d ||| NET_TICDIFF_CHATCHAR else d
  let d := if last.lookfly ≠ ticcmd.lookfly ∨ ticcmd.arti ≠ 0 then d ||| NET_TICDIFF_RAVEN else d
  let d := if last.buttons2 ≠ ticcmd.buttons2 ∨ ticcmd.inventory ≠ 0 then d ||| NET_TICDIFF_STRIFE else d
  { diff := d, cmd := ticcmd }

/-- `apply_ticcmd_diff` (net_client.rs lines 549-584): start from the base
command, overwrite each field whose mask bit is set; the edge-triggered
fields (chatchar, arti, inventory) are cleared to 0 when their bit is unset. -/
def apply_ticcmd_diff (base : TicCmd) (diff : NetTicDiff) : TicCmd :=
  let result := base
  let result := if diff.diff &&& NET_TICDIFF_FORWARD ≠ 0 then
    { result with forwardmove := diff.cmd.forwardmove } else result
  let result := if diff.diff &&& NET_TICDIFF_SIDE ≠ 0 then
    { result with sidemove := diff.cmd.sidemove } else result
  let result := if diff.diff &&& NET_TICDIFF_TURN ≠ 0 then
    { result with angleturn := diff.cmd.angleturn } else result
  let result := if diff.diff &&& NET_TICDIFF_BUTTONS ≠ 0 then
    { result with buttons := diff.cmd.buttons } else result
  let result := if diff.diff &&& NET_TICDIFF_CONSISTANCY ≠ 0 then
    { result with consistancy := diff.cmd.consistancy } else result
  let result := if diff.diff &&& NET_TICDIFF_CHATCHAR ≠ 0 then
    { result with chatchar := diff.cmd.chatchar }
  else
    { result with chatchar := 0 }
  let result := if diff.diff &&& NET_TICDIFF_RAVEN ≠ 0 then
    { result with lookfly := diff.cmd.lookfly, arti := diff.cmd.arti }
  else
    { result with arti := 0 }
  let result := if diff.diff &&& NET_TICDIFF_STRIFE ≠ 0 then
    { result with buttons2 := diff.cmd.buttons2, inventory := diff.cmd.inventory }
  else
    { result with inventory := 0 }
  result

/-- The canonicalization from claim C1: `cur` with chatchar zeroed when
`cur.chatchar = 0`, arti zeroed when lookfly is unchanged and `cur.arti = 0`,
and inventory zeroed when buttons2 is unchanged and `cur.inventory = 0`. -/
def canonicalize_ticcmd (base cur : TicCmd) : TicCmd :=
  { cur with
    chatchar := if cur.chatchar = 0 then 0 else cur.chatchar,
    arti := if base.lookfly = cur.lookfly ∧ cur.arti = 0 then 0 else cur.arti,
    inventory := if base.buttons2 = cur.buttons2 ∧ cur.inventory = 0 then 0
                 else cur.inventory }

/-- Helper: mask built from the eight field-changed conditions, one bit each,
in the source's FORWARD..STRIFE order. -/
def diffMask (c1 c2 c3 c4 c5 c6 c7 c8 : Bool) : Nat :=
  (bif c1 then NET_TICDIFF_FORWARD else 0) |||
  (bif c2 then NET_TICDIFF_SIDE else 0) |||
  (bif c3 then NET_TICDIFF_TURN else 0) |||
  (bif c4 then NET_TICDIFF_BUTTONS else 0) |||
  (bif c5 then NET_TICDIFF_CONSISTANCY else 0) |||
  (bif c6 then NET_TICDIFF_CHATCHAR else 0) |||
  (bif c7 then NET_TICDIFF_RAVEN else 0) |||
  (bif c8 then NET_TICDIFF_STRIFE else 0)

/-! ## Wire sequence-number expansion (`src/src/net_client.rs`) -/

/-- `expand_tic_num` (net_client.rs lines 1110-1113; the drafts at lines
227-229 and 873-875 are identical): plain u32 addition of the wire byte to
`recv_window_start`, reduced mod 2^32. -/
def expand_tic_num (recv_window_start relative : Nat) : Nat :=
  (recv_window_start + relative) % 4294967296

/-- Modelled from the spec: expand-seq(b) with receive-window start `w`:
let `l = w &&& 0xff`, `h = w &&& ~0xff`; start with `h ||| b`; subtract
0x100 when `l < 0x40 ∧ b > 0xb0`; add 0x100 when `l > 0xb0 ∧ b < 0x40`. -/
def expand_seq_spec (w b : Nat) : Int :=
  let l := w % 256
  let h := w - l
  let result : Int := ((h ||| b : Nat) : Int)
  let result := if l < 0x40 ∧ b > 0xb0 then result - 0x100 else result
  if l > 0xb0 ∧ b < 0x40 then result + 0x100 else result

/-! ## Clock-sync controller (`src/src/net_client.rs` lines 899-919) -/

/-- Modelled from the spec: `ClockCtx` holds the clock controller's
persistent state `{last_latency, cumulative_error, last_error}` (`offset_ms`,
an f32 computation with gains 0.1/0.01/0.02, is published from the same
data and is not modelled — floating point is outside the embedding). -/
structure ClockCtx where
  last_latency : Int
  cumulative_error : Int
  last_error : Int
deriving DecidableEq, Repr

/-- Modelled from the spec: one clock-sync update with persistent state —
`e = latency − remote_latency`, `I += e`, `last_latency = latency`,
`last_e = e` stored for the next call. -/
def update_clock_sync_spec (ctx : ClockCtx) (latency remote_latency : Int) :
    ClockCtx :=
  let error := latency - remote_latency
  { last_latency := latency,
    cumulative_error := ctx.cumulative_error + error,
    last_error := error }

/-- `update_clock_sync` (net_client.rs lines 899-919; the draft at lines
253-272 is identical): the PID accumulators `cumul_error` and `last_error`
are LOCAL variables initialised to 0 on every call (the code's own comment
reads "these should be stored in the struct"), so no integrator state exists
between calls; only `self.last_latency` is written back.  The measured
latency (an `Instant::elapsed` reading of the send-slot timestamp) is passed
in as `latency`; the f32 `offset_ms` value is printed and discarded.
Returns `(new last_latency, the cumul_error value after the += in this
call)`. -/
def update_clock_sync (latency remote_latency : Int) : Int × Int :=
  let error := latency - remote_latency
  let cumul_error : Int := 0
  let cumul_error := cumul_error + error
  (latency, cumul_error)

/-! ## Loop pacer time mapping (`src/src/d_loop.rs`) -/

-- Constants (d_loop.rs lines 8-10).

def TICRATE : Nat := 35

def FRACUNIT : Int := 1 <<< 16

/-- `get_adjusted_time` (d_loop.rs lines 46-57).  `time_ms` is the wall
clock reading cast to i32 and `offsetms` the published offset.  The
`new_sync` branch computes `((time_ms + OFFSETMS) / FRACUNIT) as u32 *
TICRATE / 1000`; the legacy branch computes `time_ms as u32 * TICRATE /
1000`.  i32 division truncates toward zero (`Int.tdiv`); `as u32` and u32
multiplication reduce mod 2^32. -/
def get_adjusted_time (new_sync : Bool) (time_ms offsetms : Int) : Nat :=
  if new_sync then
    toU32 (Int.tdiv (time_ms + offsetms) FRACUNIT) * TICRATE % 4294967296 / 1000
  else
    toU32 time_ms * TICRATE % 4294967296 / 1000

/-- Modelled from the spec: Adjusted-time(now) = `((now_ms + offset_ms) *
35) / 1000` when `new_sync`, else `now_ms * 35 / 1000`, in exact integer
arithmetic. -/
def adjusted_time_spec (new_sync : Bool) (now_ms offset_ms : Int) : Int :=
  if new_sync then (now_ms + offset_ms) * 35 / 1000 else now_ms * 35 / 1000

/-! ## Client session model (`src/src/net_client.rs`)

The repository keeps several drafts of the same methods side by side; the
embedding follows the draft at the lines cited in each doc comment.  All
`Instant` values are `Int` millisecond timestamps passed in as parameters;
`connection.connected` is flattened into a `connected` flag.  The u32
counter `recv_window_start` is modelled as an unbounded `Nat`: it advances
once per delivered tic, so its 2^32 wraparound (about 3.9 years at 35 Hz)
is outside the model. -/

-- `NET_MAXPLAYERS` and `BACKUPTICS` (net_structs.rs lines 54-56).

def NET_MAXPLAYERS : Nat := 8

def BACKUPTICS : Nat := 128

/-- `ClientState` (net_client.rs lines 13-20). -/
inductive ClientState where
  | waitingLaunch
  | waitingStart
  | inGame
  | disconnected
  | disconnectedSleep
deriving DecidableEq, Repr

/-- `NetFullTicCmd` (net_structs.rs lines 341-347); the two arrays are
lists of length `NET_MAXPLAYERS`. -/
structure NetFullTicCmd where
  latency : Int          -- i32
  seq : Nat              -- u32
  playeringame : List Bool
  cmds : List NetTicDiff
deriving DecidableEq, Repr

/-- `NetFullTicCmd::default()`. -/
def NetFullTicCmd.default : NetFullTicCmd :=
  ⟨0, 0, List.replicate NET_MAXPLAYERS false,
   List.replicate NET_MAXPLAYERS NetTicDiff.default⟩

/-- One receive-window slot: the occupancy flag, resend-request timestamp
and stored bundle that net_client.rs reads and writes as
`recv_window[i].active / .resend_time / .cmd` (the drafts leave the element
type itself to a stub, so the slot carries exactly those three fields). -/
structure RecvSlot where
  active : Bool
  resend_time : Int
  cmd : NetFullTicCmd
deriving DecidableEq, Repr

def RecvSlot.default : RecvSlot := ⟨false, 0, NetFullTicCmd.default⟩

/-- One send-queue slot (`send_queue[i].active / .seq / .time / .cmd`). -/
structure SendSlot where
  active : Bool
  seq : Nat
  time : Int
  cmd : NetTicDiff
deriving DecidableEq, Repr

def SendSlot.default : SendSlot := ⟨false, 0, 0, NetTicDiff.default⟩

/-- `GameSettings` (net_structs.rs lines 31-51): unsigned fields as `Nat`,
signed as `Int`, `player_classes` a list of length 8. -/
structure GameSettings where
  ticdup : Nat
  extratics : Nat
  deathmatch : Nat
  nomonsters : Nat
  fast_monsters : Nat
  respawn_monsters : Nat
  episode : Nat
  map : Nat
  skill : Int
  gameversion : Nat
  lowres_turn : Nat
  new_sync : Nat
  timelimit : Nat
  loadgame : Int
  random : Nat
  num_players : Nat
  consoleplayer : Int
  player_classes : List Nat
deriving DecidableEq, Repr

/-- `GameSettings::default()`: all fields zero. -/
def GameSettings.default : GameSettings :=
  ⟨0, 0, 0, 0, 0, 0, 0, 0, 0, 0, 0, 0, 0, 0, 0, 0, 0,
   List.replicate NET_MAXPLAYERS 0⟩

/-- Reader monad over a packet: Rust methods take `&mut self` and return
`Option<T>`, so a failing `?` keeps the partially advanced cursor —
`OptionT (StateM NetPacket)` has exactly this behaviour. -/
abbrev PacketM := OptionT (StateM NetPacket)

/-- Monadic view of `NetPacket::read_u8`. -/
def rdU8 : PacketM Nat := fun p => NetPacket.read_u8 p

/-- Monadic view of `NetPacket::read_i8`. -/
def rdI8 : PacketM Int := fun p => NetPacket.read_i8 p

/-- Monadic view of `NetPacket::read_i16`. -/
def rdI16 : PacketM Int := fun p => NetPacket.read_i16 p

/-- Monadic view of `NetPacket::read_u32`. -/
def rdU32 : PacketM Nat := fun p => NetPacket.read_u32 p

/-- `read_ticcmd_diff` (net_packet.rs lines 21-70): the mask byte, then one
field per set bit in FORWARD..STRIFE order; TURN is one byte (×256) under
`lowres_turn`, else two; absent CHATCHAR/ARTI/INVENTORY are cleared. -/
def read_ticcmd_diff (lowres_turn : Bool) : PacketM NetTicDiff := do
  let diffBits ← rdU8
  let mut cmd := TicCmd.default
  if diffBits &&& NET_TICDIFF_FORWARD ≠ 0 then
    let v ← rdI8
    cmd := { cmd with forwardmove := v }
  if diffBits &&& NET_TICDIFF_SIDE ≠ 0 then
    let v ← rdI8
    cmd := { cmd with sidemove := v }
  if diffBits &&& NET_TICDIFF_TURN ≠ 0 then
    if lowres_turn then
      let v ← rdI8
      cmd := { cmd with angleturn := v * 256 }
    else
      let v ← rdI16
      cmd := { cmd with angleturn := v }
  if diffBits &&& NET_TICDIFF_BUTTONS ≠ 0 then
    let v ← rdU8
    cmd := { cmd with buttons := v }
  if diffBits &&& NET_TICDIFF_CONSISTANCY ≠ 0 then
    let v ← rdU8
    cmd := { cmd with consistancy := v }
  if diffBits &&& NET_TICDIFF_CHATCHAR ≠ 0 then
    let v ← rdU8
    cmd := { cmd with chatchar := v }
  else
    cmd := { cmd with chatchar := 0 }
  if diffBits &&& NET_TICDIFF_RAVEN ≠ 0 then
    let v ← rdU8
    let w ← rdU8
    cmd := { cmd with lookfly := v, arti := w }
  else
    cmd := { cmd with arti := 0 }
  if diffBits &&& NET_TICDIFF_STRIFE ≠ 0 then
    let v ← rdU8
    let w ← rdI16
    cmd := { cmd with buttons2 := v, inventory := w }
  else
    cmd := { cmd with inventory := 0 }
  pure { diff := diffBits, cmd := cmd }

/-- `read_full_ticcmd` (net_packet.rs lines 327-342): a 16-bit latency, the
player-in-game bitfield, then one tic-diff per in-game player. -/
def read_full_ticcmd (lowres_turn : Bool) : PacketM NetFullTicCmd := do
  let latency ← rdI16
  let bitfield ← rdU8
  let playeringame :=
    (List.range NET_MAXPLAYERS).map (fun i => decide (bitfield &&& (1 <<< i) ≠ 0))
  let mut cmds := List.replicate NET_MAXPLAYERS NetTicDiff.default
  for i in List.range NET_MAXPLAYERS do
    if playeringame.getD i false then
      let d ← read_ticcmd_diff lowres_turn
      cmds := cmds.set i d
  pure { NetFullTicCmd.default with
         latency := latency, playeringame := playeringame, cmds := cmds }

/-- `read_settings` (net_packet.rs lines 277-300): the fixed header fields
in order, then one class byte per player.  (The source writes
`player_classes[i]` for `i < num_players` and would panic past index 7;
`List.set` is a no-op there.) -/
def read_settings : PacketM GameSettings := do
  let ticdup ← rdU8
  let extratics ← rdU8
  let deathmatch ← rdU8
  let nomonsters ← rdU8
  let fast_monsters ← rdU8
  let respawn_monsters ← rdU8
  let episode ← rdU8
  let map ← rdU8
  let skill ← rdI8
  let gameversion ← rdU8
  let lowres_turn ← rdU8
  let new_sync ← rdU8
  let timelimit ← rdU32
  let loadgame ← rdI8
  let random ← rdU8
  let num_players ← rdU8
  let consoleplayer ← rdI8
  let mut player_classes := List.replicate NET_MAXPLAYERS 0
  for i in List.range num_players do
    let v ← rdU8
    player_classes := player_classes.set i v
  pure { ticdup := ticdup, extratics := extratics, deathmatch := deathmatch,
         nomonsters := nomonsters, fast_monsters := fast_monsters,
         respawn_monsters := respawn_monsters, episode := episode,
         map := map, skill := skill, gameversion := gameversion,
         lowres_turn := lowres_turn, new_sync := new_sync,
         timelimit := timelimit, loadgame := loadgame, random := random,
         num_players := num_players, consoleplayer := consoleplayer,
         player_classes := player_classes }

/-- The `NetClient` state (net_client.rs lines 30-53, plus `last_ticcmd`
and `recvwindow_cmd_base` initialised in `new`, lines 80-81).  Fields never
read or written by the modelled operations (socket, player name, SHA1 sums,
wait data, reject reason, timers of the connect loop) are omitted. -/
structure NetClient where
  state : ClientState
  settings : Option GameSettings
  drone : Bool
  connected : Bool
  recv_window_start : Nat
  recv_window : List RecvSlot    -- length BACKUPTICS
  send_queue : List SendSlot     -- length BACKUPTICS
  need_acknowledge : Bool
  gamedata_recv_time : Int
  last_latency : Int
  last_ticcmd : TicCmd
  recvwindow_cmd_base : List TicCmd  -- length NET_MAXPLAYERS
deriving DecidableEq, Repr

/-- `NetClient::new` (lines 56-83) restricted to the modelled fields. -/
def NetClient.new (drone : Bool) : NetClient :=
  { state := ClientState.disconnected
    settings := none
    drone := drone
    connected := false
    recv_window_start := 0
    recv_window := List.replicate BACKUPTICS RecvSlot.default
    send_queue := List.replicate BACKUPTICS SendSlot.default
    need_acknowledge := false
    gamedata_recv_time := 0
    last_latency := 0
    last_ticcmd := TicCmd.default
    recvwindow_cmd_base := List.replicate NET_MAXPLAYERS TicCmd.default }

/-- Summary of a datagram the client sends (payload bytes elided). -/
inductive SentMsg where
  | gamedata (ackByte startByte countByte : Nat)
  | gamedataAck (ackByte : Nat)
  | resendRequest (start end_ : Nat)
deriving DecidableEq, Repr

/-- Sign extension `i8 as u32` (Rust), as used on the GAMEDATA seq byte. -/
def i8_as_u32 (v : Int) : Nat := (v % 4294967296).toNat

/-- Sign extension `i8 as usize` (Rust), as used on `consoleplayer`. -/
def i8_as_usize (v : Int) : Nat := (v % 18446744073709551616).toNat

/-- Reinterpretation `i32 as u32` (Rust), as used on the resend bounds. -/
def i32_as_u32 (v : Int) : Nat := (v % 4294967296).toNat

/-- Wrapping u32 subtraction `a - b`, as Rust computes it on `u32` (the
subtrahend is reduced so the definition agrees with the machine for every
representable input). -/
def u32_sub (a b : Nat) : Nat :=
  (a + (4294967296 - b % 4294967296)) % 4294967296

/-- Wrapping i32 arithmetic: reduce an intermediate `Int` to the `i32`
value Rust's wrapping two's-complement arithmetic produces. -/
def i32_wrap (v : Int) : Int :=
  (v + 2147483648) % 4294967296 - 2147483648

/-- The slot-stamping loop of `send_resend_request` (lines 1050-1056):
`resend_time = now` on every requested slot whose wrapping-u32 offset
`(i - recv_window_start) as usize` from the window start is inside the
window. -/
def mark_resend (win : List RecvSlot) (w start end_ : Nat) (now : Int) :
    List RecvSlot :=
  (List.range' start (end_ + 1 - start)).foldl
    (fun acc i =>
      let index := u32_sub i w
      if index < BACKUPTICS then
        acc.set index { acc.getD index RecvSlot.default with resend_time := now }
      else acc)
    win

/-- `send_resend_request` (lines 1041-1057): transmit the request (packet
summarised as a `SentMsg`) and stamp the requested slots. -/
def send_resend_request (c : NetClient) (start end_ : Nat) (now : Int) :
    NetClient × SentMsg :=
  ({ c with recv_window := mark_resend c.recv_window c.recv_window_start start end_ now },
   SentMsg.resendRequest start end_)

/-- `send_game_data_ack` (lines 1115-1123): transmit the low byte of
`recv_window_start` and clear `need_acknowledge`. -/
def send_game_data_ack (c : NetClient) : NetClient × SentMsg :=
  ({ c with need_acknowledge := false },
   SentMsg.gamedataAck (c.recv_window_start % 256))

/-- `send_tics` (lines 1125-1147): nothing when not connected; otherwise
transmit one GAMEDATA covering `[start, end]` (header bytes as written at
lines 1132-1134; the per-tic payload is elided from the summary) and clear
`need_acknowledge`. -/
def send_tics (c : NetClient) (start end_ : Nat) : NetClient × Option SentMsg :=
  if ¬c.connected then (c, none)
  else
    ({ c with need_acknowledge := false },
     some (SentMsg.gamedata (c.recv_window_start % 256) (start % 256)
        ((end_ - start + 1) % 256)))

/-- `send_ticcmd` (lines 1337-1357): diff the command against
`last_ticcmd`, store the send slot at `maketic mod BACKUPTICS`, and send
tics `[maketic − extratics, maketic]` (clamped at 0).  `now` abstracts
`Instant::now()`.  The source unwraps `settings`, panicking when absent;
the model reads `extratics` as 0 then.  Note that `last_ticcmd` itself is
never written. -/
def send_ticcmd (c : NetClient) (ticcmd : TicCmd) (maketic : Nat) (now : Int) :
    NetClient × Option SentMsg :=
  let diff := calculate_ticcmd_diff c.last_ticcmd ticcmd
  let sendobj : SendSlot :=
    { active := true, seq := maketic, time := now, cmd := diff }
  let c := { c with
    send_queue := c.send_queue.set (maketic % BACKUPTICS) sendobj }
  let extratics := match c.settings with
    | some s => s.extratics
    | none => 0
  let starttic := if maketic < extratics then 0 else maketic - extratics
  let endtic := maketic
  send_tics c starttic endtic

/-- `update_clock_sync` draft at lines 1100-1108 — the one adjacent to the
`parse_game_data` draft at lines 1003-1039 — a placeholder that writes
`last_latency = 0`. -/
def update_clock_sync_stub (c : NetClient) (_seq : Nat)
    (_remote_latency : Int) : NetClient :=
  { c with last_latency := 0 }

/-- `lowres_turn` as needed by `read_full_ticcmd`; the client drafts call
it without the flag, so it is taken from the settings snapshot (false
before game start). -/
def NetClient.lowres (c : NetClient) : Bool :=
  match c.settings with
  | some s => s.lowres_turn ≠ 0
  | none => false

/-- The store step of one `parse_game_data` iteration (lines 1012-1019):
when the wrapping-u32 offset `(seq + i as u32 - recv_window_start) as usize`
is inside the window, occupy the slot with the bundle and, on the last
iteration, run the (stub) clock-sync update with the bundle's latency. -/
def pgd_store (c : NetClient) (seq num_tics i : Nat) (cmd : NetFullTicCmd) :
    NetClient :=
  let index := u32_sub (seq + i) c.recv_window_start
  if index < BACKUPTICS then
    let slot : RecvSlot :=
      { active := true
        resend_time := (c.recv_window.getD index RecvSlot.default).resend_time
        cmd := cmd }
    let c := { c with recv_window := c.recv_window.set index slot }
    if i = num_tics - 1 then update_clock_sync_stub c (seq + i) cmd.latency
    else c
  else c

/-- One iteration of the store loop of `parse_game_data` (lines
1010-1021): read one bundle; a failed read skips the store but later
iterations keep reading from the partially advanced cursor, as the
source's `if let` does. -/
def pgd_step (seq num_tics : Nat) (acc : NetClient × NetPacket) (i : Nat) :
    NetClient × NetPacket :=
  let (c, p) := acc
  let (ocmd, p) := read_full_ticcmd c.lowres p
  let c := match ocmd with
    | some cmd => pgd_store c seq num_tics i cmd
    | none => c
  (c, p)

/-- The backward gap scan of `parse_game_data` (lines 1029-1032): walk
`resend_start` down from `resend_end − 1` while the slot is unoccupied.
(An index at or past the window end, which would panic in the source, is
modelled as an unoccupied slot.) -/
def gap_scan (win : List RecvSlot) (j : Int) : Int :=
  if h : 0 ≤ j ∧ (win.getD j.toNat RecvSlot.default).active = false then
    gap_scan win (j - 1)
  else j
termination_by (j + 1).toNat
decreasing_by omega

/-- `parse_game_data` (net_client.rs lines 1003-1039). `now` abstracts
`Instant::now()`.  The wire seq byte is sign-extended (`as u32`) and
expanded by `expand_tic_num` (wrapping u32 `recv_window_start + relative`);
a negative tic-count byte makes the store loop empty.  The resend bound
`seq as i32 - recv_window_start as i32` is wrapping i32 arithmetic, and the
request bounds `recv_window_start + resend_start as u32 + 1` /
`recv_window_start + resend_end as u32 - 1` are wrapping u32 arithmetic, as
in the source. -/
def parse_game_data (c : NetClient) (p : NetPacket) (now : Int) :
    NetClient × Option SentMsg :=
  match NetPacket.read_i8 p with
  | (none, _) => (c, none)
  | (some seqByte, p) =>
    match NetPacket.read_i8 p with
    | (none, _) => (c, none)
    | (some numTicsByte, p) =>
      let seq := expand_tic_num c.recv_window_start (i8_as_u32 seqByte)
      let num_tics := numTicsByte.toNat
      let (c, _) := (List.range num_tics).foldl (pgd_step seq num_tics) (c, p)
      let c := { c with need_acknowledge := true, gamedata_recv_time := now }
      let resend_end : Int :=
        i32_wrap (toI32 seq - toI32 (c.recv_window_start % 4294967296))
      if resend_end > 0 then
        let resend_start := gap_scan c.recv_window (resend_end - 1)
        if resend_start < resend_end - 1 then
          let (c, m) := send_resend_request c
            ((c.recv_window_start + i32_as_u32 resend_start + 1) % 4294967296)
            (u32_sub (c.recv_window_start + i32_as_u32 resend_end) 1) now
          (c, some m)
        else (c, none)
      else (c, none)

/-- `expand_full_ticcmd` (lines 1195-1207) as a pure function of the
per-player base array, the console player index (`consoleplayer as usize`),
and the drone flag: returns the built commands and the updated base array.
The source unwraps `settings` to read `consoleplayer`; the callers below
pass the unwrapped value. -/
def expand_full_ticcmd (cp : Nat) (drone : Bool) (base : List TicCmd)
    (cmd : NetFullTicCmd) : List TicCmd × List TicCmd :=
  (List.range NET_MAXPLAYERS).foldl
    (fun (acc : List TicCmd × List TicCmd) i =>
      let (ticcmds, base) := acc
      if i = cp ∧ ¬drone then acc
      else if cmd.playeringame.getD i false then
        let d := cmd.cmds.getD i NetTicDiff.default
        let res := apply_ticcmd_diff (base.getD i TicCmd.default) d
        (ticcmds.set i res, base.set i res)
      else acc)
    (List.replicate NET_MAXPLAYERS TicCmd.default, base)

/-- Number of occupied slots of a receive window. -/
def countActive (w : List RecvSlot) : Nat := (w.filter (·.active)).length

/-- One iteration of `advance_window` (lines 1180-1189): build the
per-player commands for slot 0 (updating the running decompression base via
`expand_full_ticcmd`; the source unwraps `settings` for `consoleplayer`,
read as 0 when absent), shift the window by one and bump
`recv_window_start` — a wrapping u32 `+= 1`, so the start wraps to 0 at
2^32.  The built commands go to `receive_tic`, a print stub. -/
def advance_step (c : NetClient) : NetClient :=
  let cur := c.recv_window.headD RecvSlot.default
  let cp := i8_as_usize (match c.settings with
    | some s => s.consoleplayer
    | none => 0)
  let base := (expand_full_ticcmd cp c.drone c.recvwindow_cmd_base cur.cmd).2
  { c with
    recvwindow_cmd_base := base
    recv_window := c.recv_window.tail ++ [RecvSlot.default]
    recv_window_start := (c.recv_window_start + 1) % 4294967296 }

/-- `advance_window` (lines 1178-1193): while slot 0 is occupied, run
`advance_step`; the trace records the sequence number of each tic handed to
the simulation. -/
def advance_window (c : NetClient) : NetClient × List Nat :=
  if h : (c.recv_window.headD RecvSlot.default).active = true then
    let (cf, rest) := advance_window (advance_step c)
    (cf, c.recv_window_start :: rest)
  else (c, [])
termination_by countActive c.recv_window
decreasing_by
  have hh : (advance_step c).recv_window =
      c.recv_window.tail ++ [RecvSlot.default] := rfl
  rw [hh]
  cases hw : c.recv_window with
  | nil => rw [hw] at h; simp [RecvSlot.default] at h
  | cons a t =>
      rw [hw] at h
      simp only [List.headD_cons] at h
      simp [countActive, List.filter_append, h, RecvSlot.default]

/-- One iteration of the `check_resends` sweep (lines 1229-1250): a slot
needs a fresh request when unoccupied and last requested more than 300 ms
ago; runs of needy slots are merged, and a request is emitted when a run
ends.  The slot-0 special case at lines 1233-1235 binds a fresh
`need_resend` that is immediately dropped (a shadowing bug in the source),
so it has no effect and `maybe_deadlocked` is unused. -/
def check_resends_step (now : Int) (acc : NetClient × Int × Int × List SentMsg)
    (i : Nat) : NetClient × Int × Int × List SentMsg :=
  let (c, resend_start, resend_end, msgs) := acc
  let recvobj := c.recv_window.getD i RecvSlot.default
  let need_resend := recvobj.active = false ∧ now - recvobj.resend_time > 300
  if need_resend then
    (c, (if resend_start < 0 then (i : Int) else resend_start), (i : Int), msgs)
  else if resend_start ≥ 0 then
    let (c, m) := send_resend_request c
      ((c.recv_window_start + i32_as_u32 resend_start) % 4294967296)
      ((c.recv_window_start + i32_as_u32 resend_end) % 4294967296) now
    (c, -1, resend_end, msgs ++ [m])
  else (c, resend_start, resend_end, msgs)

/-- `check_resends` (lines 1223-1264): sweep all `BACKUPTICS` slots with
`check_resends_step`, flush the trailing run (lines 1252-1258), then the
ack policy (lines 1260-1263). -/
def check_resends (c : NetClient) (now : Int) : NetClient × List SentMsg :=
  let (c, resend_start, resend_end, msgs) :=
    (List.range BACKUPTICS).foldl (check_resends_step now) (c, -1, -1, [])
  let (c, msgs) :=
    if resend_start ≥ 0 then
      let (c, m) := send_resend_request c
        ((c.recv_window_start + i32_as_u32 resend_start) % 4294967296)
        ((c.recv_window_start + i32_as_u32 resend_end) % 4294967296) now
      (c, msgs ++ [m])
    else (c, msgs)
  if c.need_acknowledge = true ∧ now - c.gamedata_recv_time > 200 then
    let (c, m) := send_game_data_ack c
    (c, msgs ++ [m])
  else (c, msgs)

/-- `parse_launch` (lines 954-967): only in WaitingLaunch, and only when
the player-count byte is readable, move to WaitingStart. -/
def parse_launch (c : NetClient) (p : NetPacket) : NetClient :=
  if c.state ≠ ClientState.waitingLaunch then c
  else
    match NetPacket.read_i8 p with
    | (some _, _) => { c with state := ClientState.waitingStart }
    | (none, _) => c

/-- `parse_game_start` (lines 969-1001): read the settings; only in
WaitingStart and only when they validate (`num_players ≤ 8`,
`consoleplayer as usize < num_players`, drone flag polarity) enter InGame,
snapshot the settings and reset `recv_window_start` (this draft does not
clear the rings). -/
def parse_game_start (c : NetClient) (p : NetPacket) : NetClient :=
  match read_settings p with
  | (some settings, _) =>
    if c.state ≠ ClientState.waitingStart then c
    else if settings.num_players > NET_MAXPLAYERS ∨
            i8_as_usize settings.consoleplayer ≥ settings.num_players then c
    else if (c.drone ∧ settings.consoleplayer ≥ 0) ∨
            (¬c.drone ∧ settings.consoleplayer < 0) then c
    else { c with state := ClientState.inGame, settings := some settings,
                  recv_window_start := 0 }
  | (none, _) => c

/-- `get_settings` (lines 1313-1318). -/
def get_settings (c : NetClient) : Option GameSettings :=
  if c.state ≠ ClientState.inGame then none
  else c.settings

/-- `shutdown` (lines 849-854): drop the connection and enter
Disconnected. -/
def shutdown (c : NetClient) : NetClient :=
  { c with state := ClientState.disconnected, connected := false }

/-- The success branch of `connect` (lines 788-793) as one step: the
connection is up and the client enters WaitingLaunch with the requested
drone flag. -/
def connect_succeeded (c : NetClient) (drone : Bool) : NetClient :=
  { c with state := ClientState.waitingLaunch, connected := true,
           drone := drone }

/-- Fields of the client that the receive path never modifies. -/
def SameFrame (c c' : NetClient) : Prop :=
  c'.recv_window_start = c.recv_window_start ∧ c'.state = c.state ∧
  c'.settings = c.settings

/-- The modelled client operations that read or write the session state,
the settings snapshot, or the rings: the success step of `connect`, the
packet handlers, the receive-path sweeps, local tic submission and
shutdown.  (Handlers that touch none of the modelled fields — `parse_syn`,
`parse_reject`, `parse_waiting_data`, `parse_console_message` — have no
effect on this state.) -/
inductive ClientOp where
  | connectSucceeded (drone : Bool)
  | parseLaunch (p : NetPacket)
  | parseGameStart (p : NetPacket)
  | parseGameData (p : NetPacket) (now : Int)
  | advanceWindow
  | checkResends (now : Int)
  | sendTiccmd (cmd : TicCmd) (maketic : Nat) (now : Int)
  | shutdownOp

def apply_client_op : ClientOp → NetClient → NetClient
  | ClientOp.connectSucceeded d, c => connect_succeeded c d
  | ClientOp.parseLaunch p, c => parse_launch c p
  | ClientOp.parseGameStart p, c => parse_game_start c p
  | ClientOp.parseGameData p now, c => (parse_game_data c p now).1
  | ClientOp.advanceWindow, c => (advance_window c).1
  | ClientOp.checkResends now, c => (check_resends c now).1
  | ClientOp.sendTiccmd cmd t now, c => (send_ticcmd c cmd t now).1
  | ClientOp.shutdownOp, c => shutdown c

def run_client_ops (ops : List ClientOp) (c : NetClient) : NetClient :=
  ops.foldl (fun c op => apply_client_op op c) c

/-- While the session is InGame a settings snapshot is present. -/
def SettingsInv (c : NetClient) : Prop :=
  c.state = ClientState.inGame → c.settings.isSome = true

/-- The client used to evaluate C4: connected, with a settings snapshot
(extratics 0), fresh queues. -/
def c4client : NetClient :=
  { NetClient.new false with
    connected := true,
    settings := some GameSettings.default }

/-- The input command used to evaluate C4. -/
def c4cmd : TicCmd := { TicCmd.default with forwardmove := 10 }

/-- The client used to evaluate C9: connected, session state
WaitingStart. -/
def c9client : NetClient :=
  { NetClient.new false with
    state := ClientState.waitingStart,
    connected := true }

/-- The WaitingStart client used in the C10 witness. -/
def c10client : NetClient :=
  { NetClient.new false with state := ClientState.waitingStart }

/-- An InGame client with a settings snapshot, used in the C10 witness. -/
def c10ingame : NetClient :=
  { NetClient.new false with
    state := ClientState.inGame,
    settings := some GameSettings.default }

/-- A valid GAMESTART settings payload: ticdup 1, episode 1, map 1,
num_players 1, consoleplayer 0, one player class. -/
def c10packet : NetPacket :=
  ⟨[1, 0, 0, 0, 0, 0, 1, 1, 0, 0, 0, 0, 0, 0, 0, 0, 0, 0, 1, 0, 0], 0⟩

theorem ite_cond_decide (p : Prop) [Decidable p] (a b : Nat) :
    (if p then a else b) = bif decide p then a else b := by
  by_cases h : p <;> simp [h]

theorem cond_or_eq (c : Bool) (d b : Nat) :
    (bif c then d ||| b else d) = d ||| (bif c then b else 0) := by
  cases c <;> simp

theorem calculate_ticcmd_diff_mask (last ticcmd : TicCmd) :
    (calculate_ticcmd_diff last ticcmd).diff =
      diffMask (decide (last.forwardmove ≠ ticcmd.forwardmove))
        (decide (last.sidemove ≠ ticcmd.sidemove))
        (decide (last.angleturn ≠ ticcmd.angleturn))
        (decide (last.buttons ≠ ticcmd.buttons))
        (decide (last.consistancy ≠ ticcmd.consistancy))
        (decide (ticcmd.chatchar ≠ 0))
        (decide (last.lookfly ≠ ticcmd.lookfly ∨ ticcmd.arti ≠ 0))
        (decide (last.buttons2 ≠ ticcmd.buttons2 ∨ ticcmd.inventory ≠ 0)) := by
  simp only [calculate_ticcmd_diff, diffMask, ite_cond_decide, cond_or_eq,
    Nat.zero_or]

theorem diffMask_bits (c1 c2 c3 c4 c5 c6 c7 c8 : Bool) :
    ((diffMask c1 c2 c3 c4 c5 c6 c7 c8 &&& NET_TICDIFF_FORWARD ≠ 0) ↔ c1 = true) ∧
    ((diffMask c1 c2 c3 c4 c5 c6 c7 c8 &&& NET_TICDIFF_SIDE ≠ 0) ↔ c2 = true) ∧
    ((diffMask c1 c2 c3 c4 c5 c6 c7 c8 &&& NET_TICDIFF_TURN ≠ 0) ↔ c3 = true) ∧
    ((diffMask c1 c2 c3 c4 c5 c6 c7 c8 &&& NET_TICDIFF_BUTTONS ≠ 0) ↔ c4 = true) ∧
    ((diffMask c1 c2 c3 c4 c5 c6 c7 c8 &&& NET_TICDIFF_CONSISTANCY ≠ 0) ↔ c5 = true) ∧
    ((diffMask c1 c2 c3 c4 c5 c6 c7 c8 &&& NET_TICDIFF_CHATCHAR ≠ 0) ↔ c6 = true) ∧
    ((diffMask c1 c2 c3 c4 c5 c6 c7 c8 &&& NET_TICDIFF_RAVEN ≠ 0) ↔ c7 = true) ∧
    ((diffMask c1 c2 c3 c4 c5 c6 c7 c8 &&& NET_TICDIFF_STRIFE ≠ 0) ↔ c8 = true) := by
  revert c1 c2 c3 c4 c5 c6 c7 c8
  decide

theorem calculate_ticcmd_diff_cmd (last ticcmd : TicCmd) :
    (calculate_ticcmd_diff last ticcmd).cmd = ticcmd := rfl

theorem apply_forwardmove (base : TicCmd) (d : NetTicDiff) :
    (apply_ticcmd_diff base d).forwardmove =
      if d.diff &&& NET_TICDIFF_FORWARD ≠ 0 then d.cmd.forwardmove
      else base.forwardmove := by
  simp [apply_ticcmd_diff, apply_ite TicCmd.forwardmove]

theorem apply_sidemove (base : TicCmd) (d : NetTicDiff) :
    (apply_ticcmd_diff base d).sidemove =
      if d.diff &&& NET_TICDIFF_SIDE ≠ 0 then d.cmd.sidemove
      else base.sidemove := by
  simp [apply_ticcmd_diff, apply_ite TicCmd.sidemove]

theorem apply_angleturn (base : TicCmd) (d : NetTicDiff) :
    (apply_ticcmd_diff base d).angleturn =
      if d.diff &&& NET_TICDIFF_TURN ≠ 0 then d.cmd.angleturn
      else base.angleturn := by
  simp [apply_ticcmd_diff, apply_ite TicCmd.angleturn]

theorem apply_buttons (base : TicCmd) (d : NetTicDiff) :
    (apply_ticcmd_diff base d).buttons =
      if d.diff &&& NET_TICDIFF_BUTTONS ≠ 0 then d.cmd.buttons
      else base.buttons := by
  simp [apply_ticcmd_diff, apply_ite TicCmd.buttons]

theorem apply_consistancy (base : TicCmd) (d : NetTicDiff) :
    (apply_ticcmd_diff base d).consistancy =
      if d.diff &&& NET_TICDIFF_CONSISTANCY ≠ 0 then d.cmd.consistancy
      else base.consistancy := by
  simp [apply_ticcmd_diff, apply_ite TicCmd.consistancy]

theorem apply_chatchar (base : TicCmd) (d : NetTicDiff) :
    (apply_ticcmd_diff base d).chatchar =
      if d.diff &&& NET_TICDIFF_CHATCHAR ≠ 0 then d.cmd.chatchar else 0 := by
  simp [apply_ticcmd_diff, apply_ite TicCmd.chatchar]

theorem apply_lookfly (base : TicCmd) (d : NetTicDiff) :
    (apply_ticcmd_diff base d).lookfly =
      if d.diff &&& NET_TICDIFF_RAVEN ≠ 0 then d.cmd.lookfly
      else base.lookfly := by
  simp [apply_ticcmd_diff, apply_ite TicCmd.lookfly]

theorem apply_arti (base : TicCmd) (d : NetTicDiff) :
    (apply_ticcmd_diff base d).arti =
      if d.diff &&& NET_TICDIFF_RAVEN ≠ 0 then d.cmd.arti else 0 := by
  simp [apply_ticcmd_diff, apply_ite TicCmd.arti]

theorem apply_buttons2 (base : TicCmd) (d : NetTicDiff) :
    (apply_ticcmd_diff base d).buttons2 =
      if d.diff &&& NET_TICDIFF_STRIFE ≠ 0 then d.cmd.buttons2
      else base.buttons2 := by
  simp [apply_ticcmd_diff, apply_ite TicCmd.buttons2]

theorem apply_inventory (base : TicCmd) (d : NetTicDiff) :
    (apply_ticcmd_diff base d).inventory =
      if d.diff &&& NET_TICDIFF_STRIFE ≠ 0 then d.cmd.inventory else 0 := by
  simp [apply_ticcmd_diff, apply_ite TicCmd.inventory]

/-- Applying the diff computed against `base` reconstructs the current
command exactly (a fortiori: equal to `cur` outside the edge-triggered
fields, and on those fields equal because the zeroed cases are exactly the
cases where the field is already zero). -/
theorem apply_calculate_ticcmd_diff (base cur : TicCmd) :
    apply_ticcmd_diff base (calculate_ticcmd_diff base cur) = cur := by
  obtain ⟨h1, h2, h3, h4, h5, h6, h7, h8⟩ := diffMask_bits
    (decide (base.forwardmove ≠ cur.forwardmove))
    (decide (base.sidemove ≠ cur.sidemove))
    (decide (base.angleturn ≠ cur.angleturn))
    (decide (base.buttons ≠ cur.buttons))
    (decide (base.consistancy ≠ cur.consistancy))
    (decide (cur.chatchar ≠ 0))
    (decide (base.lookfly ≠ cur.lookfly ∨ cur.arti ≠ 0))
    (decide (base.buttons2 ≠ cur.buttons2 ∨ cur.inventory ≠ 0))
  rw [← calculate_ticcmd_diff_mask base cur] at h1 h2 h3 h4 h5 h6 h7 h8
  simp only [decide_eq_true_eq] at h1 h2 h3 h4 h5 h6 h7 h8
  ext
  · rw [apply_forwardmove, calculate_ticcmd_diff_cmd]
    by_cases e : base.forwardmove = cur.forwardmove <;> simp [h1, e]
  · rw [apply_sidemove, calculate_ticcmd_diff_cmd]
    by_cases e : base.sidemove = cur.sidemove <;> simp [h2, e]
  · rw [apply_angleturn, calculate_ticcmd_diff_cmd]
    by_cases e : base.angleturn = cur.angleturn <;> simp [h3, e]
  · rw [apply_chatchar, calculate_ticcmd_diff_cmd]
    by_cases e : cur.chatchar = 0 <;> simp [h6, e]
  · rw [apply_buttons, calculate_ticcmd_diff_cmd]
    by_cases e : base.buttons = cur.buttons <;> simp [h4, e]
  · rw [apply_consistancy, calculate_ticcmd_diff_cmd]
    by_cases e : base.consistancy = cur.consistancy <;> simp [h5, e]
  · rw [apply_buttons2, calculate_ticcmd_diff_cmd]
    by_cases e : base.buttons2 ≠ cur.buttons2 ∨ cur.inventory ≠ 0 <;>
      simp_all [not_or]
  · rw [apply_inventory, calculate_ticcmd_diff_cmd]
    by_cases e : base.buttons2 ≠ cur.buttons2 ∨ cur.inventory ≠ 0 <;>
      simp_all [not_or]
  · rw [apply_lookfly, calculate_ticcmd_diff_cmd]
    by_cases e : base.lookfly ≠ cur.lookfly ∨ cur.arti ≠ 0 <;>
      simp_all [not_or]
  · rw [apply_arti, calculate_ticcmd_diff_cmd]
    by_cases e : base.lookfly ≠ cur.lookfly ∨ cur.arti ≠ 0 <;>
      simp_all [not_or]

theorem canonicalize_ticcmd_eq (base cur : TicCmd) :
    canonicalize_ticcmd base cur = cur := by
  have h1 : (if cur.chatchar = 0 then 0 else cur.chatchar) = cur.chatchar := by
    by_cases h : cur.chatchar = 0 <;> simp [h]
  have h2 : (if base.lookfly = cur.lookfly ∧ cur.arti = 0 then 0 else cur.arti)
      = cur.arti := by
    by_cases h : base.lookfly = cur.lookfly ∧ cur.arti = 0
    · simp [h, h.2]
    · simp [h]
  have h3 : (if base.buttons2 = cur.buttons2 ∧ cur.inventory = 0 then 0
      else cur.inventory) = cur.inventory := by
    by_cases h : base.buttons2 = cur.buttons2 ∧ cur.inventory = 0
    · simp [h, h.2]
    · simp [h]
  unfold canonicalize_ticcmd
  rw [h1, h2, h3]

theorem foldl_invariant {α β : Type} (P : β → Prop) (f : β → α → β)
    (l : List α) (b : β) (hstep : ∀ b a, P b → P (f b a)) (hb : P b) :
    P (l.foldl f b) := by
  induction l generalizing b with
  | nil => exact hb
  | cons a t ih => exact ih (f b a) (hstep b a hb)

theorem sameFrame_refl (c : NetClient) : SameFrame c c := ⟨rfl, rfl, rfl⟩

theorem sameFrame_trans {a b c : NetClient} (h1 : SameFrame a b)
    (h2 : SameFrame b c) : SameFrame a c :=
  ⟨h2.1.trans h1.1, h2.2.1.trans h1.2.1, h2.2.2.trans h1.2.2⟩

theorem send_resend_request_frame (c : NetClient) (s e : Nat) (now : Int) :
    SameFrame c (send_resend_request c s e now).1 := ⟨rfl, rfl, rfl⟩

theorem update_clock_sync_stub_frame (c : NetClient) (s : Nat) (r : Int) :
    SameFrame c (update_clock_sync_stub c s r) := ⟨rfl, rfl, rfl⟩

theorem pgd_store_frame (c : NetClient) (seq num_tics i : Nat)
    (cmd : NetFullTicCmd) : SameFrame c (pgd_store c seq num_tics i cmd) := by
  unfold pgd_store
  dsimp only
  split
  · split
    · exact ⟨rfl, rfl, rfl⟩
    · exact ⟨rfl, rfl, rfl⟩
  · exact sameFrame_refl c

theorem pgd_step_frame (seq num_tics : Nat)
    (acc : NetClient × NetPacket) (i : Nat) (c0 : NetClient)
    (h : SameFrame c0 acc.1) :
    SameFrame c0 (pgd_step seq num_tics acc i).1 := by
  obtain ⟨c, p⟩ := acc
  unfold pgd_step
  dsimp only at h ⊢
  rcases read_full_ticcmd c.lowres p with ⟨ocmd, p1⟩
  cases ocmd with
  | none => exact h
  | some cmd =>
      exact sameFrame_trans h (pgd_store_frame c seq num_tics i cmd)

theorem pgd_fold_frame (seq num_tics : Nat) (c : NetClient)
    (p : NetPacket) :
    SameFrame c
      ((List.range num_tics).foldl (pgd_step seq num_tics) (c, p)).1 :=
  foldl_invariant (fun acc => SameFrame c acc.1) (pgd_step seq num_tics)
    (List.range num_tics) (c, p)
    (fun b a hb => pgd_step_frame seq num_tics b a c hb)
    (sameFrame_refl c)

theorem parse_game_data_frame (c : NetClient) (p : NetPacket) (now : Int) :
    SameFrame c (parse_game_data c p now).1 := by
  unfold parse_game_data
  split
  · exact sameFrame_refl c
  · split
    · exact sameFrame_refl c
    · dsimp only
      split
      · split
        · refine sameFrame_trans ?_ (send_resend_request_frame _ _ _ _)
          exact sameFrame_trans (pgd_fold_frame _ _ _ _) ⟨rfl, rfl, rfl⟩
        · exact sameFrame_trans (pgd_fold_frame _ _ _ _) ⟨rfl, rfl, rfl⟩
      · exact sameFrame_trans (pgd_fold_frame _ _ _ _) ⟨rfl, rfl, rfl⟩

theorem send_game_data_ack_frame (c : NetClient) :
    SameFrame c (send_game_data_ack c).1 := ⟨rfl, rfl, rfl⟩

theorem check_resends_step_frame (now : Int)
    (acc : NetClient × Int × Int × List SentMsg) (i : Nat) (c0 : NetClient)
    (h : SameFrame c0 acc.1) :
    SameFrame c0 (check_resends_step now acc i).1 := by
  obtain ⟨c, rs, re, msgs⟩ := acc
  unfold check_resends_step
  dsimp only at h ⊢
  split
  · exact h
  · split
    · exact sameFrame_trans h (send_resend_request_frame _ _ _ _)
    · exact h

theorem check_resends_frame (c : NetClient) (now : Int) :
    SameFrame c (check_resends c now).1 := by
  have hfold : SameFrame c
      ((List.range BACKUPTICS).foldl (check_resends_step now) (c, -1, -1, [])).1 :=
    foldl_invariant (fun acc => SameFrame c acc.1) (check_resends_step now)
      (List.range BACKUPTICS) (c, -1, -1, [])
      (fun b a hb => check_resends_step_frame now b a c hb)
      (sameFrame_refl c)
  unfold check_resends
  rcases hx : (List.range BACKUPTICS).foldl (check_resends_step now)
      (c, -1, -1, []) with ⟨c1, rs, re, msgs⟩
  rw [hx] at hfold
  dsimp only at hfold ⊢
  have hmid : ∀ q : NetClient × List SentMsg, SameFrame c q.1 →
      SameFrame c (if q.1.need_acknowledge = true ∧
          now - q.1.gamedata_recv_time > 200 then
        ((send_game_data_ack q.1).1, q.2 ++ [(send_game_data_ack q.1).2])
      else q).1 := by
    intro q hq
    split
    · exact sameFrame_trans hq (send_game_data_ack_frame _)
    · exact hq
  split
  · refine hmid _ ?_
    exact sameFrame_trans hfold (send_resend_request_frame _ _ _ _)
  · exact hmid _ hfold

/-- `advance_window` leaves the session state and settings untouched. -/
theorem advance_window_frame (c : NetClient) :
    (advance_window c).1.state = c.state ∧
    (advance_window c).1.settings = c.settings := by
  induction c using advance_window.induct with
  | case1 x hact cf rest hadv ih =>
      have hx : advance_window x = (cf, x.recv_window_start :: rest) := by
        rw [advance_window, dif_pos hact, hadv]
      rw [hadv] at ih
      dsimp only at ih
      rw [hx]
      obtain ⟨ih1, ih2⟩ := ih
      have hstep2 : (advance_step x).state = x.state := rfl
      have hstep3 : (advance_step x).settings = x.settings := rfl
      exact ⟨ih1.trans hstep2, ih2.trans hstep3⟩
  | case2 x hneg =>
      have hx : advance_window x = (x, []) := by
        rw [advance_window, dif_neg hneg]
      rw [hx]
      exact ⟨rfl, rfl⟩

theorem send_ticcmd_state_settings (c : NetClient) (cmd : TicCmd)
    (t : Nat) (now : Int) :
    (send_ticcmd c cmd t now).1.state = c.state ∧
    (send_ticcmd c cmd t now).1.settings = c.settings := by
  unfold send_ticcmd send_tics
  dsimp only
  split
  · exact ⟨rfl, rfl⟩
  · exact ⟨rfl, rfl⟩

theorem settingsInv_step (op : ClientOp) (c : NetClient) (h : SettingsInv c) :
    SettingsInv (apply_client_op op c) := by
  cases op with
  | connectSucceeded d =>
      show SettingsInv (connect_succeeded c d)
      intro he
      simp [connect_succeeded] at he
  | parseLaunch p =>
      show SettingsInv (parse_launch c p)
      unfold parse_launch
      split
      · exact h
      · split
        · intro he; simp at he
        · exact h
  | parseGameStart p =>
      show SettingsInv (parse_game_start c p)
      unfold parse_game_start
      split
      · split
        · exact h
        · split
          · exact h
          · split
            · exact h
            · intro _; rfl
      · exact h
  | parseGameData p now =>
      show SettingsInv ((parse_game_data c p now).1)
      obtain ⟨-, hs, hset⟩ := parse_game_data_frame c p now
      intro he
      rw [hset, h (hs ▸ he)]
  | advanceWindow =>
      show SettingsInv ((advance_window c).1)
      obtain ⟨hs, hset⟩ := advance_window_frame c
      intro he
      rw [hset, h (hs ▸ he)]
  | checkResends now =>
      show SettingsInv ((check_resends c now).1)
      obtain ⟨-, hs, hset⟩ := check_resends_frame c now
      intro he
      rw [hset, h (hs ▸ he)]
  | sendTiccmd cmd t now =>
      show SettingsInv ((send_ticcmd c cmd t now).1)
      obtain ⟨hs, hset⟩ := send_ticcmd_state_settings c cmd t now
      intro he
      rw [hset, h (hs ▸ he)]
  | shutdownOp =>
      show SettingsInv (shutdown c)
      intro he
      simp [shutdown] at he

theorem settingsInv_run (ops : List ClientOp) (c : NetClient)
    (h : SettingsInv c) : SettingsInv (run_client_ops ops c) :=
  foldl_invariant SettingsInv (fun c op => apply_client_op op c) ops c
    (fun b a hb => settingsInv_step a b hb) h

/-! ## Packet codec lemmas -/

namespace NetPacket

theorem read_u8_fail (p : NetPacket) (h : (read_u8 p).1 = none) :
    (read_u8 p).2 = p := by
  by_cases hc : p.pos < p.data.length
  · simp [read_u8, hc] at h
  · simp [read_u8, hc]

theorem read_i8_fail (p : NetPacket) (h : (read_i8 p).1 = none) :
    (read_i8 p).2 = p := by
  by_cases hc : p.pos < p.data.length
  · simp [read_i8, read_u8, hc] at h
  · simp [read_i8, read_u8, hc]

theorem read_u16_fail (p : NetPacket) (h : (read_u16 p).1 = none) :
    (read_u16 p).2 = p := by
  by_cases hc : p.pos + 2 ≤ p.data.length
  · simp [read_u16, hc] at h
  · simp [read_u16, hc]

theorem read_i16_fail (p : NetPacket) (h : (read_i16 p).1 = none) :
    (read_i16 p).2 = p := by
  by_cases hc : p.pos + 2 ≤ p.data.length
  · simp [read_i16, read_u16, hc] at h
  · simp [read_i16, read_u16, hc]

theorem read_u32_fail (p : NetPacket) (h : (read_u32 p).1 = none) :
    (read_u32 p).2 = p := by
  by_cases hc : p.pos + 4 ≤ p.data.length
  · simp [read_u32, hc] at h
  · simp [read_u32, hc]

theorem read_i32_fail (p : NetPacket) (h : (read_i32 p).1 = none) :
    (read_i32 p).2 = p := by
  by_cases hc : p.pos + 4 ≤ p.data.length
  · simp [read_i32, read_u32, hc] at h
  · simp [read_i32, read_u32, hc]

theorem read_string_fail (p : NetPacket) (h : (read_string p).1 = none) :
    (read_string p).2 = p := by
  unfold read_string at h ⊢
  cases hf : (p.data.drop p.pos).findIdx? (· = 0) with
  | some t => rw [hf] at h; simp at h
  | none => rfl

theorem read_sha1sum_fail (p : NetPacket) (h : (read_sha1sum p).1 = none) :
    (read_sha1sum p).2 = p := by
  by_cases hc : p.pos + 20 ≤ p.data.length
  · simp [read_sha1sum, hc] at h
  · simp [read_sha1sum, hc]

theorem read_u8_advance (p : NetPacket) (h : (read_u8 p).1.isSome = true) :
    (read_u8 p).2.pos = p.pos + 1 := by
  by_cases hc : p.pos < p.data.length
  · simp [read_u8, hc]
  · simp [read_u8, hc] at h

theorem read_i8_advance (p : NetPacket) (h : (read_i8 p).1.isSome = true) :
    (read_i8 p).2.pos = p.pos + 1 := by
  by_cases hc : p.pos < p.data.length
  · simp [read_i8, read_u8, hc]
  · simp [read_i8, read_u8, hc] at h

theorem read_u16_advance (p : NetPacket) (h : (read_u16 p).1.isSome = true) :
    (read_u16 p).2.pos = p.pos + 2 := by
  by_cases hc : p.pos + 2 ≤ p.data.length
  · simp [read_u16, hc]
  · simp [read_u16, hc] at h

theorem read_i16_advance (p : NetPacket) (h : (read_i16 p).1.isSome = true) :
    (read_i16 p).2.pos = p.pos + 2 := by
  by_cases hc : p.pos + 2 ≤ p.data.length
  · simp [read_i16, read_u16, hc]
  · simp [read_i16, read_u16, hc] at h

theorem read_u32_advance (p : NetPacket) (h : (read_u32 p).1.isSome = true) :
    (read_u32 p).2.pos = p.pos + 4 := by
  by_cases hc : p.pos + 4 ≤ p.data.length
  · simp [read_u32, hc]
  · simp [read_u32, hc] at h

theorem read_i32_advance (p : NetPacket) (h : (read_i32 p).1.isSome = true) :
    (read_i32 p).2.pos = p.pos + 4 := by
  by_cases hc : p.pos + 4 ≤ p.data.length
  · simp [read_i32, read_u32, hc]
  · simp [read_i32, read_u32, hc] at h

theorem findIdx_some_spec : ∀ (l : List Nat) (t : Nat),
    l.findIdx? (· = 0) = some t → t < l.length ∧ l.getD t 1 = 0 := by
  intro l
  induction l with
  | nil => intro t h; simp [List.findIdx?] at h
  | cons a tl ih =>
      intro t h
      by_cases ha : a = 0
      · simp [List.findIdx?_cons, ha] at h
        obtain rfl := h
        exact ⟨by simp, by simp [ha]⟩
      · simp [List.findIdx?_cons, ha] at h
        cases hx : tl.findIdx? (· = 0) with
        | none => rw [hx] at h; simp at h
        | some j =>
            rw [hx] at h
            simp at h
            obtain ⟨hk, hg⟩ := ih j hx
            have ht : t = j + 1 := by omega
            subst ht
            refine ⟨by simp only [List.length_cons]; omega, ?_⟩
            simpa using hg

theorem take_getD_succ : ∀ (l : List Nat) (t : Nat), t < l.length →
    l.take (t + 1) = l.take t ++ [l.getD t 1] := by
  intro l
  induction l with
  | nil => intro t ht; simp at ht
  | cons a tl ih =>
      intro t ht
      cases t with
      | zero => simp
      | succ k =>
          simp only [List.take_succ_cons, List.getD_cons_succ,
            List.cons_append]
          exact congrArg (a :: ·) (ih k (by
            simp only [List.length_cons] at ht; omega))

theorem read_string_advance (p : NetPacket) (s : List Nat) (p' : NetPacket)
    (h : read_string p = (some s, p')) :
    p'.pos = p.pos + s.length + 1 ∧
    (p.data.drop p.pos).take (s.length + 1) = s ++ [0] := by
  unfold read_string at h
  cases hf : (p.data.drop p.pos).findIdx? (· = 0) with
  | none =>
      rw [hf] at h
      exact Option.noConfusion (congrArg Prod.fst h)
  | some t =>
      rw [hf] at h
      have h1 : some ((p.data.drop p.pos).take t) = some s :=
        congrArg Prod.fst h
      have h2 : ({ p with pos := p.pos + t + 1 } : NetPacket) = p' :=
        congrArg Prod.snd h
      obtain ⟨hlt, hget⟩ := findIdx_some_spec (p.data.drop p.pos) t hf
      have hlen : ((p.data.drop p.pos).take t).length = t := by
        rw [List.length_take]
        omega
      have hs : s = (p.data.drop p.pos).take t := (Option.some.inj h1).symm
      subst hs
      constructor
      · rw [← h2, hlen]
      · rw [hlen, take_getD_succ (p.data.drop p.pos) t hlt, hget]

theorem read_sha1sum_advance (p : NetPacket)
    (h : (read_sha1sum p).1.isSome = true) :
    (read_sha1sum p).2.pos = p.pos + 20 := by
  by_cases hc : p.pos + 20 ≤ p.data.length
  · simp [read_sha1sum, hc]
  · simp [read_sha1sum, hc] at h

theorem u8_roundtrip (p : NetPacket) (v : Nat) :
    (read_u8 ⟨(write_u8 p v).data, p.data.length⟩).1 = some v := by
  unfold write_u8 read_u8
  rw [if_pos]
  · simp
  · simp

theorem i8_roundtrip (p : NetPacket) (v : Int) (h0 : -128 ≤ v)
    (h1 : v < 128) : (read_i8 ⟨(write_i8 p v).data, p.data.length⟩).1 =
      some v := by
  unfold write_i8 read_i8 read_u8
  rw [if_pos]
  · simp only [List.getD_eq_getElem?_getD,
      List.getElem?_append_right (Nat.le_refl _), Nat.sub_self]
    simp [toU8, toI8]
    split <;> omega
  · simp

theorem u16_roundtrip (p : NetPacket) (v : Nat) :
    (read_u16 ⟨(write_u16 p v).data, p.data.length⟩).1 = some v := by
  unfold write_u16 read_u16
  rw [if_pos]
  · simp only [List.drop_left]
    show some (v / 256 * 256 + v % 256) = some v
    exact congrArg some (by omega)
  · simp

theorem i16_roundtrip (p : NetPacket) (v : Int) (h0 : -32768 ≤ v)
    (h1 : v < 32768) : (read_i16 ⟨(write_i16 p v).data, p.data.length⟩).1 =
      some v := by
  unfold write_i16 read_i16 read_u16
  rw [if_pos]
  · simp only [List.drop_left]
    show some (toI16 (toU16 v / 256 * 256 + toU16 v % 256)) = some v
    simp only [Option.some.injEq, toI16, toU16]
    split <;> omega
  · simp

theorem u32_roundtrip (p : NetPacket) (v : Nat) (h : v < 4294967296) :
    (read_u32 ⟨(write_u32 p v).data, p.data.length⟩).1 = some v := by
  unfold write_u32 read_u32
  rw [if_pos]
  · simp only [List.drop_left]
    show some (v / 16777216 * 16777216 + v / 65536 % 256 * 65536 +
      v / 256 % 256 * 256 + v % 256) = some v
    exact congrArg some (by omega)
  · simp

theorem i32_roundtrip (p : NetPacket) (v : Int) (h0 : -2147483648 ≤ v)
    (h1 : v < 2147483648) :
    (read_i32 ⟨(write_i32 p v).data, p.data.length⟩).1 = some v := by
  unfold write_i32 read_i32 read_u32
  rw [if_pos]
  · simp only [List.drop_left]
    show some (toI32 (toU32 v / 16777216 * 16777216 +
      toU32 v / 65536 % 256 * 65536 + toU32 v / 256 % 256 * 256 +
      toU32 v % 256)) = some v
    simp only [Option.some.injEq, toI32, toU32]
    split <;> omega
  · simp

theorem findIdx_zero_at (s : List Nat) (h : ∀ b ∈ s, b ≠ 0) :
    (s ++ [0]).findIdx? (· = 0) = some s.length := by
  induction s with
  | nil => simp
  | cons a t ih =>
      have ha : a ≠ 0 := h a (List.mem_cons_self a t)
      have ht := ih (fun b hb => h b (List.mem_cons_of_mem a hb))
      simp [List.findIdx?_cons, ha, ht]

theorem string_roundtrip (p : NetPacket) (s : List Nat)
    (h : ∀ b ∈ s, b ≠ 0) :
    (read_string ⟨(write_string p s).data, p.data.length⟩).1 = some s := by
  unfold write_string read_string
  have hf : s.filter (· ≠ 0) = s :=
    List.filter_eq_self.mpr (by intro a ha; simpa using h a ha)
  simp only [hf, List.append_assoc, List.drop_left, findIdx_zero_at s h,
    List.take_left]

theorem sha1_roundtrip (p : NetPacket) (b : List Nat) (h : b.length = 20) :
    (read_sha1sum ⟨(write_blob p b).data, p.data.length⟩).1 = some b := by
  unfold write_blob read_sha1sum
  rw [if_pos]
  · simp only [List.drop_left]
    rw [← h, List.take_length]
  · simp [h]

end NetPacket

/-- C1: for every pair of tic commands `base` and `cur`,
`apply_ticcmd_diff (base, calculate_ticcmd_diff (base, cur))` equals `cur`
except that chatchar is zeroed when `cur.chatchar = 0`, arti is zeroed when
lookfly is unchanged and `cur.arti = 0`, and inventory is zeroed when
buttons2 is unchanged and `cur.inventory = 0` (the edge-triggered fields
whose mask bits would be unset). -/
theorem ticdiff_apply_compute_roundtrip (base cur : TicCmd) :
    apply_ticcmd_diff base (calculate_ticcmd_diff base cur) =
      canonicalize_ticcmd base cur :=
  (apply_calculate_ticcmd_diff base cur).trans
    (canonicalize_ticcmd_eq base cur).symm

/-- C3: the code's wire expansion is plain u32 addition of the byte to
`recv_window_start`, not the spec's low-byte-replacement formula with the
±0x100 boundary adjustment.  At window start w = 1 and absolute tic s = 1
(inside the ±128-tic window of w), the wire byte is s &&& 0xff = 1; the
code expands it to 2 while the spec formula yields s = 1, so the code's
expansion is not a left inverse of `&&& 0xff` on that window. -/
theorem expand_tic_num_divergence :
    (1 : Nat) &&& 0xff = 1 ∧
    expand_tic_num 1 1 = 2 ∧
    expand_seq_spec 1 1 = 1 := by decide

/-- C4: `send_ticcmd` stores the slot and transmits, but never updates the
stored last local ticcmd: after `send_ticcmd(c4cmd, 0)` the client's
`last_ticcmd` is still the default (not `c4cmd`), so the next call
`send_ticcmd(c4cmd, 1)` diffs against the default and marks FORWARD as
changed even though the command is identical to the previous tic's. -/
theorem send_ticcmd_no_last_update :
    ((send_ticcmd c4client c4cmd 0 0).1).last_ticcmd = TicCmd.default ∧
    TicCmd.default ≠ c4cmd ∧
    (((send_ticcmd (send_ticcmd c4client c4cmd 0 0).1 c4cmd 1 0).1).send_queue.getD
        1 SendSlot.default).cmd.diff &&& NET_TICDIFF_FORWARD ≠ 0 := by decide

/-- C5: the code's clock-sync accumulators do not persist — `cumul_error`
and `last_error` are locals reset to 0 on every call, and the
`update_clock_sync` result does not depend on any stored clock state.  With
measured latency 150 and remote latency 50 (error e = 100) on two
consecutive calls, the code's integrator on the second call is still 100,
while the spec's persistent integrator is 200. -/
theorem update_clock_sync_no_persistence :
    (update_clock_sync 150 50).2 = 100 ∧
    (update_clock_sync 150 50).1 = 150 ∧
    (update_clock_sync_spec (update_clock_sync_spec ⟨0, 0, 0⟩ 150 50)
        150 50).cumulative_error = 200 := by decide

/-- C6: in the `new_sync` branch the code divides the millisecond clock by
`FRACUNIT` = 65536 before applying the 35 Hz mapping: at `now_ms = 1000`,
`offset_ms = 0` the code yields 0 where the spec's
`(now_ms + offset_ms) * 35 / 1000` yields 35 (the legacy branch agrees with
the spec). -/
theorem get_adjusted_time_divergence :
    get_adjusted_time true 1000 0 = 0 ∧
    adjusted_time_spec true 1000 0 = 35 ∧
    get_adjusted_time false 1000 0 = 35 := by decide

/-- C7 counterexample: `read_u16` on a one-byte packet fails, returning
`none`, but leaves the cursor at 0 — not at the end of the packet data
(1) as the claim states. -/
theorem read_fail_cursor_not_at_end :
    (NetPacket.read_u16 ⟨[7], 0⟩).1 = none ∧
    (NetPacket.read_u16 ⟨[7], 0⟩).2.pos = 0 ∧
    (⟨[7], 0⟩ : NetPacket).data.length = 1 ∧
    (0 : Nat) ≠ 1 := by decide

/-- C7 (amended): for every packet and every read operation, a failed read
returns None and leaves the packet — in particular the position cursor —
unchanged (not "at the end"), and every successful read returns the value
and advances the cursor past the bytes consumed (by the field width; past
the NUL terminator for strings). -/
theorem read_failure_cursor_semantics (p : NetPacket) :
    ((NetPacket.read_u8 p).1 = none → (NetPacket.read_u8 p).2 = p) ∧
    ((NetPacket.read_i8 p).1 = none → (NetPacket.read_i8 p).2 = p) ∧
    ((NetPacket.read_u16 p).1 = none → (NetPacket.read_u16 p).2 = p) ∧
    ((NetPacket.read_i16 p).1 = none → (NetPacket.read_i16 p).2 = p) ∧
    ((NetPacket.read_u32 p).1 = none → (NetPacket.read_u32 p).2 = p) ∧
    ((NetPacket.read_i32 p).1 = none → (NetPacket.read_i32 p).2 = p) ∧
    ((NetPacket.read_string p).1 = none → (NetPacket.read_string p).2 = p) ∧
    ((NetPacket.read_sha1sum p).1 = none →
      (NetPacket.read_sha1sum p).2 = p) ∧
    ((NetPacket.read_u8 p).1.isSome = true →
      (NetPacket.read_u8 p).2.pos = p.pos + 1) ∧
    ((NetPacket.read_i8 p).1.isSome = true →
      (NetPacket.read_i8 p).2.pos = p.pos + 1) ∧
    ((NetPacket.read_u16 p).1.isSome = true →
      (NetPacket.read_u16 p).2.pos = p.pos + 2) ∧
    ((NetPacket.read_i16 p).1.isSome = true →
      (NetPacket.read_i16 p).2.pos = p.pos + 2) ∧
    ((NetPacket.read_u32 p).1.isSome = true →
      (NetPacket.read_u32 p).2.pos = p.pos + 4) ∧
    ((NetPacket.read_i32 p).1.isSome = true →
      (NetPacket.read_i32 p).2.pos = p.pos + 4) ∧
    (∀ (s : List Nat) (p' : NetPacket),
      NetPacket.read_string p = (some s, p') →
      p'.pos = p.pos + s.length + 1 ∧
      (p.data.drop p.pos).take (s.length + 1) = s ++ [0]) ∧
    ((NetPacket.read_sha1sum p).1.isSome = true →
      (NetPacket.read_sha1sum p).2.pos = p.pos + 20) :=
  ⟨NetPacket.read_u8_fail p, NetPacket.read_i8_fail p,
   NetPacket.read_u16_fail p, NetPacket.read_i16_fail p,
   NetPacket.read_u32_fail p, NetPacket.read_i32_fail p,
   NetPacket.read_string_fail p, NetPacket.read_sha1sum_fail p,
   NetPacket.read_u8_advance p, NetPacket.read_i8_advance p,
   NetPacket.read_u16_advance p, NetPacket.read_i16_advance p,
   NetPacket.read_u32_advance p, NetPacket.read_i32_advance p,
   NetPacket.read_string_advance p, NetPacket.read_sha1sum_advance p⟩

/-- C7 witness: the amended statement evaluated on concrete packets — every
read fails on the empty packet leaving it unchanged, and every read
succeeds on a 20-NUL-byte packet with the cursor advanced as stated. -/
theorem read_failure_cursor_semantics_witness :
    ((NetPacket.read_u8 ⟨[], 0⟩).2 = ⟨[], 0⟩) ∧
    ((NetPacket.read_i8 ⟨[], 0⟩).2 = ⟨[], 0⟩) ∧
    ((NetPacket.read_u16 ⟨[], 0⟩).2 = ⟨[], 0⟩) ∧
    ((NetPacket.read_i16 ⟨[], 0⟩).2 = ⟨[], 0⟩) ∧
    ((NetPacket.read_u32 ⟨[], 0⟩).2 = ⟨[], 0⟩) ∧
    ((NetPacket.read_i32 ⟨[], 0⟩).2 = ⟨[], 0⟩) ∧
    ((NetPacket.read_string ⟨[], 0⟩).2 = ⟨[], 0⟩) ∧
    ((NetPacket.read_sha1sum ⟨[], 0⟩).2 = ⟨[], 0⟩) ∧
    ((NetPacket.read_u8 ⟨List.replicate 20 0, 0⟩).2.pos = 1) ∧
    ((NetPacket.read_i8 ⟨List.replicate 20 0, 0⟩).2.pos = 1) ∧
    ((NetPacket.read_u16 ⟨List.replicate 20 0, 0⟩).2.pos = 2) ∧
    ((NetPacket.read_i16 ⟨List.replicate 20 0, 0⟩).2.pos = 2) ∧
    ((NetPacket.read_u32 ⟨List.replicate 20 0, 0⟩).2.pos = 4) ∧
    ((NetPacket.read_i32 ⟨List.replicate 20 0, 0⟩).2.pos = 4) ∧
    ((⟨List.replicate 20 0, 1⟩ : NetPacket).pos = 1 ∧
      ((List.replicate 20 0 : List Nat).drop 0).take 1 =
        ([] : List Nat) ++ [0]) ∧
    ((NetPacket.read_sha1sum ⟨List.replicate 20 0, 0⟩).2.pos = 20) := by
  obtain ⟨f1, f2, f3, f4, f5, f6, f7, f8, -, -, -, -, -, -, -, -⟩ :=
    read_failure_cursor_semantics ⟨[], 0⟩
  obtain ⟨-, -, -, -, -, -, -, -, s1, s2, s3, s4, s5, s6, s7, s8⟩ :=
    read_failure_cursor_semantics ⟨List.replicate 20 0, 0⟩
  exact ⟨f1 (by decide), f2 (by decide), f3 (by decide), f4 (by decide),
    f5 (by decide), f6 (by decide), f7 (by decide), f8 (by decide),
    s1 (by decide), s2 (by decide), s3 (by decide), s4 (by decide),
    s5 (by decide), s6 (by decide),
    s7 ([] : List Nat) (⟨List.replicate 20 0, 1⟩ : NetPacket) rfl,
    s8 (by decide)⟩

/-- C8 counterexample: the string with bytes [97, 0] ("a\x00") is written
as [97, 0] — the interior NUL byte is filtered out and the terminator
appended — and reads back as [97] ("a"), not the value written. -/
theorem write_read_string_counterexample :
    (NetPacket.read_string
      ⟨(NetPacket.write_string ⟨[], 0⟩ [97, 0]).data, 0⟩).1 = some [97] ∧
    [97] ≠ [97, 0] := by decide

/-- C8 (amended): writing a value and reading it back from the position
where the write started returns exactly the value written, for every value
of each fixed-width field (u8, i8, u16, i16, u32, i32 — in the type's
range), every 20-byte SHA-1 blob, and every string containing no NUL byte
(write_string drops NUL bytes, so only NUL-free strings round-trip). -/
theorem packet_write_read_roundtrip :
    (∀ (p : NetPacket) (v : Nat), v < 256 →
      (NetPacket.read_u8 ⟨(NetPacket.write_u8 p v).data,
        p.data.length⟩).1 = some v) ∧
    (∀ (p : NetPacket) (v : Int), -128 ≤ v → v < 128 →
      (NetPacket.read_i8 ⟨(NetPacket.write_i8 p v).data,
        p.data.length⟩).1 = some v) ∧
    (∀ (p : NetPacket) (v : Nat), v < 65536 →
      (NetPacket.read_u16 ⟨(NetPacket.write_u16 p v).data,
        p.data.length⟩).1 = some v) ∧
    (∀ (p : NetPacket) (v : Int), -32768 ≤ v → v < 32768 →
      (NetPacket.read_i16 ⟨(NetPacket.write_i16 p v).data,
        p.data.length⟩).1 = some v) ∧
    (∀ (p : NetPacket) (v : Nat), v < 4294967296 →
      (NetPacket.read_u32 ⟨(NetPacket.write_u32 p v).data,
        p.data.length⟩).1 = some v) ∧
    (∀ (p : NetPacket) (v : Int), -2147483648 ≤ v → v < 2147483648 →
      (NetPacket.read_i32 ⟨(NetPacket.write_i32 p v).data,
        p.data.length⟩).1 = some v) ∧
    (∀ (p : NetPacket) (s : List Nat), (∀ b ∈ s, b ≠ 0) →
      (NetPacket.read_string ⟨(NetPacket.write_string p s).data,
        p.data.length⟩).1 = some s) ∧
    (∀ (p : NetPacket) (b : List Nat), b.length = 20 →
      (NetPacket.read_sha1sum ⟨(NetPacket.write_blob p b).data,
        p.data.length⟩).1 = some b) :=
  ⟨fun p v _ => NetPacket.u8_roundtrip p v,
   fun p v h0 h1 => NetPacket.i8_roundtrip p v h0 h1,
   fun p v _ => NetPacket.u16_roundtrip p v,
   fun p v h0 h1 => NetPacket.i16_roundtrip p v h0 h1,
   fun p v h => NetPacket.u32_roundtrip p v h,
   fun p v h0 h1 => NetPacket.i32_roundtrip p v h0 h1,
   fun p s h => NetPacket.string_roundtrip p s h,
   fun p b h => NetPacket.sha1_roundtrip p b h⟩

/-- C8 witness: the round-trip evaluated at concrete extreme values of
every field type. -/
theorem packet_write_read_roundtrip_witness :
    (NetPacket.read_u8 ⟨(NetPacket.write_u8 ⟨[], 0⟩ 255).data, 0⟩).1 =
      some 255 ∧
    (NetPacket.read_i8 ⟨(NetPacket.write_i8 ⟨[], 0⟩ (-128)).data, 0⟩).1 =
      some (-128) ∧
    (NetPacket.read_u16 ⟨(NetPacket.write_u16 ⟨[], 0⟩ 65535).data, 0⟩).1 =
      some 65535 ∧
    (NetPacket.read_i16 ⟨(NetPacket.write_i16 ⟨[], 0⟩ (-12345)).data,
      0⟩).1 = some (-12345) ∧
    (NetPacket.read_u32 ⟨(NetPacket.write_u32 ⟨[], 0⟩ 4294967295).data,
      0⟩).1 = some 4294967295 ∧
    (NetPacket.read_i32 ⟨(NetPacket.write_i32 ⟨[], 0⟩ (-123456789)).data,
      0⟩).1 = some (-123456789) ∧
    (NetPacket.read_string ⟨(NetPacket.write_string ⟨[], 0⟩
      [72, 101, 108, 108, 111]).data, 0⟩).1 = some [72, 101, 108, 108, 111] ∧
    (NetPacket.read_sha1sum ⟨(NetPacket.write_blob ⟨[], 0⟩
      (List.replicate 20 7)).data, 0⟩).1 = some (List.replicate 20 7) := by
  obtain ⟨r1, r2, r3, r4, r5, r6, r7, r8⟩ := packet_write_read_roundtrip
  exact ⟨r1 ⟨[], 0⟩ 255 (by decide), r2 ⟨[], 0⟩ (-128) (by decide) (by decide),
    r3 ⟨[], 0⟩ 65535 (by decide),
    r4 ⟨[], 0⟩ (-12345) (by decide) (by decide),
    r5 ⟨[], 0⟩ 4294967295 (by decide),
    r6 ⟨[], 0⟩ (-123456789) (by decide) (by decide),
    r7 ⟨[], 0⟩ [72, 101, 108, 108, 111] (by decide),
    r8 ⟨[], 0⟩ (List.replicate 20 7) (by decide)⟩

/-- C9: a GAMEDATA message arriving in WaitingStart is NOT ignored —
`parse_game_data` has no session-state guard.  On the packet
[seq=0, num_tics=1, latency=0, bitfield=0] it occupies receive-window slot
0, raises `need_acknowledge` and records the receive time, although the
session state itself stays WaitingStart. -/
theorem parse_game_data_waitingstart_processed :
    ((parse_game_data c9client ⟨[0, 1, 0, 0, 0], 0⟩ 777).1).need_acknowledge
        = true ∧
    c9client.need_acknowledge = false ∧
    ((parse_game_data c9client ⟨[0, 1, 0, 0, 0], 0⟩ 777).1).gamedata_recv_time
        = 777 ∧
    (((parse_game_data c9client ⟨[0, 1, 0, 0, 0], 0⟩ 777).1).recv_window.getD
        0 RecvSlot.default).active = true ∧
    (c9client.recv_window.getD 0 RecvSlot.default).active = false ∧
    ((parse_game_data c9client ⟨[0, 1, 0, 0, 0], 0⟩ 777).1).state =
      ClientState.waitingStart := by decide

/-- C10: `get_settings` returns None whenever the session state is anything
other than InGame; a Some result implies the state is InGame and the value
is the stored snapshot; the snapshot returned right after a successful game
start is exactly the settings parsed from the GAMESTART packet; and along
every modelled operation sequence from a fresh client, settings are present
whenever the state is InGame. -/
theorem get_settings_gated :
    (∀ c : NetClient, c.state ≠ ClientState.inGame →
      get_settings c = none) ∧
    (∀ (c : NetClient) (gs : GameSettings), get_settings c = some gs →
      c.state = ClientState.inGame ∧ c.settings = some gs) ∧
    (∀ (c : NetClient) (p : NetPacket),
      (parse_game_start c p).state = ClientState.inGame →
      c.state = ClientState.waitingStart →
      get_settings (parse_game_start c p) = (read_settings p).1) ∧
    (∀ (dr : Bool) (ops : List ClientOp),
      (run_client_ops ops (NetClient.new dr)).state = ClientState.inGame →
      (get_settings (run_client_ops ops (NetClient.new dr))).isSome =
        true) := by
  refine ⟨?_, ?_, ?_, ?_⟩
  · intro c h
    unfold get_settings
    rw [if_pos h]
  · intro c gs h
    unfold get_settings at h
    by_cases hc : c.state ≠ ClientState.inGame
    · rw [if_pos hc] at h
      cases h
    · rw [if_neg hc] at h
      exact ⟨not_not.mp hc, h⟩
  · intro c p hin hws
    unfold parse_game_start at hin ⊢
    rcases hr : read_settings p with ⟨o, p2⟩
    rw [hr] at hin
    cases o with
    | none =>
        dsimp only at hin
        rw [hws] at hin
        exact absurd hin (by decide)
    | some s =>
        dsimp only at hin ⊢
        rw [if_neg (by simp [hws])] at hin ⊢
        by_cases h2 : s.num_players > NET_MAXPLAYERS ∨
            i8_as_usize s.consoleplayer ≥ s.num_players
        · rw [if_pos h2] at hin
          rw [hws] at hin
          exact absurd hin (by decide)
        · rw [if_neg h2] at hin ⊢
          by_cases h3 : (c.drone ∧ s.consoleplayer ≥ 0) ∨
              (¬c.drone ∧ s.consoleplayer < 0)
          · rw [if_pos h3] at hin
            rw [hws] at hin
            exact absurd hin (by decide)
          · rw [if_neg h3]
            unfold get_settings
            rw [if_neg (by simp)]
  · intro dr ops h
    have hi := settingsInv_run ops (NetClient.new dr)
      (by intro hst; simp [NetClient.new] at hst) h
    unfold get_settings
    rw [if_neg (by simp [h])]
    exact hi

/-- C10 witness: the gate evaluated on concrete clients — None on a fresh
(Disconnected) client, the parsed snapshot right after the concrete
GAMESTART packet, and a settings snapshot present after the operation
sequence connect-launch-gamestart reaches InGame. -/
theorem get_settings_gated_witness :
    get_settings (NetClient.new false) = none ∧
    (c10ingame.state = ClientState.inGame ∧
      c10ingame.settings = some GameSettings.default) ∧
    get_settings (parse_game_start c10client c10packet) =
      (read_settings c10packet).1 ∧
    (get_settings (run_client_ops
      [ClientOp.connectSucceeded false, ClientOp.parseLaunch ⟨[0], 0⟩,
       ClientOp.parseGameStart c10packet]
      (NetClient.new false))).isSome = true := by
  obtain ⟨g1, g2, g3, g4⟩ := get_settings_gated
  refine ⟨g1 (NetClient.new false) (by decide), ?_, ?_, ?_⟩
  · exact g2 c10ingame GameSettings.default (by decide)
  · exact g3 c10client c10packet (by decide) (by decide)
  · exact g4 false
      [ClientOp.connectSucceeded false, ClientOp.parseLaunch ⟨[0], 0⟩,
       ClientOp.parseGameStart c10packet] (by decide)

end HydraBot
